import Mathlib

/-!
Verification development for the spacecam Earth renderer.

The Go sources are embedded shallowly over the real numbers: `float64`
values become `ℝ`, Go structs become Lean structures, and every Go
function below is translated statement by statement from the source files
of the repository (packages `vectors`, `colors`, `earth`, `render`).
Division by zero follows Lean's `x / 0 = 0` convention.

The repository contains several iterations of the `render` package.  The
namespace `render` holds the latest iteration (the ray context with the
shadow cylinder and the atmosphere overlay gated on `HitsAtmosphere`);
`render1` holds the earlier iteration whose ray context carries
`SunLightIntensity` together with its ocean-gated specular highlight, and
`render0` the earliest specular-highlight variant, which has no ocean gate.

`math.Pow` only occurs in the embedded code with literal nonnegative
integer exponents, where it agrees with iterated multiplication, so it is
rendered with monoid powers.
-/

noncomputable section

namespace vectors

/-- Vec3 is a simple 3D vector with real components (Go `vectors.Vec3`). -/
structure Vec3 where
  X : ℝ
  Y : ℝ
  Z : ℝ

/-- Go `vectors.Zero`. -/
def Zero : Vec3 := ⟨0, 0, 0⟩

/-- Go `Vec3.Add`: returns v + o. -/
def Vec3.Add (v o : Vec3) : Vec3 := ⟨v.X + o.X, v.Y + o.Y, v.Z + o.Z⟩

/-- Go `Vec3.Sub`: returns v - o. -/
def Vec3.Sub (v o : Vec3) : Vec3 := ⟨v.X - o.X, v.Y - o.Y, v.Z - o.Z⟩

/-- Go `Vec3.Scale`: returns v * s. -/
def Vec3.Scale (v : Vec3) (s : ℝ) : Vec3 := ⟨v.X * s, v.Y * s, v.Z * s⟩

/-- Go `Vec3.Dot`: the dot product v · o. -/
def Vec3.Dot (v o : Vec3) : ℝ := v.X * o.X + v.Y * o.Y + v.Z * o.Z

/-- Go `Vec3.Norm`: the Euclidean length. -/
def Vec3.Norm (v : Vec3) : ℝ := Real.sqrt (v.Dot v)

/-- Go `Vec3.Normalize`: the unit vector v / ‖v‖, or the zero vector when
‖v‖ = 0. -/
def Vec3.Normalize (v : Vec3) : Vec3 :=
  if v.Norm = 0 then ⟨0, 0, 0⟩
  else
    let inv := 1 / v.Norm
    ⟨v.X * inv, v.Y * inv, v.Z * inv⟩

end vectors

namespace colors

/-- Color4 is a linear RGBA color with real components (Go `colors.Color4`). -/
structure Color4 where
  R : ℝ
  G : ℝ
  B : ℝ
  A : ℝ

/-- Go `colors.New`. -/
def New (r g b a : ℝ) : Color4 := ⟨r, g, b, a⟩

/-- Go `colors.White`. -/
def White : Color4 := ⟨1, 1, 1, 1⟩

/-- Go `colors.Black`. -/
def Black : Color4 := ⟨0, 0, 0, 1⟩

/-- Go `Color4.Add`: component-wise sum. -/
def Color4.Add (c o : Color4) : Color4 := ⟨c.R + o.R, c.G + o.G, c.B + o.B, c.A + o.A⟩

/-- Go `Color4.Mul`: component-wise product. -/
def Color4.Mul (c o : Color4) : Color4 := ⟨c.R * o.R, c.G * o.G, c.B * o.B, c.A * o.A⟩

/-- Go `Color4.Scale`: scalar product. -/
def Color4.Scale (c : Color4) (s : ℝ) : Color4 := ⟨c.R * s, c.G * s, c.B * s, c.A * s⟩

/-- Go `Color4.Mix`: lerp(c, o, t) = c*(1-t) + o*t, component-wise. -/
def Color4.Mix (c o : Color4) (t : ℝ) : Color4 :=
  ⟨c.R * (1 - t) + o.R * t,
   c.G * (1 - t) + o.G * t,
   c.B * (1 - t) + o.B * t,
   c.A * (1 - t) + o.A * t⟩

/-- Go `Color4.BoostSaturation`: scales each channel's deviation from the
channel average by `factor`, leaving alpha untouched. -/
def Color4.BoostSaturation (c : Color4) (factor : ℝ) : Color4 :=
  let avg := (c.R + c.G + c.B) / 3
  ⟨avg + (c.R - avg) * factor,
   avg + (c.G - avg) * factor,
   avg + (c.B - avg) * factor,
   c.A⟩

end colors

namespace earth

/-- Go `earth.Radius`: Earth radius in km (spherical approximation). -/
def Radius : ℝ := 6371

/-- Modelled from the spec: `earth.RadiusWithAtmosphere` is referenced by the
`render` package but its definition is not among the provided source files of
the `earth` package; the spec fixes the atmosphere shell radius as the planet
radius plus a maximum atmosphere height of about 120 km, the value the render
sources themselves use for the atmosphere extent. -/
def RadiusWithAtmosphere : ℝ := Radius + 120

end earth

namespace gomath

/-- Go's `int(x)` conversion from `float64`: truncation toward zero. -/
def toInt (u : ℝ) : ℤ := if u < 0 then -⌊-u⌋ else ⌊u⌋

/-- Go `math.Mod(x, y)`: the remainder x - y*trunc(x/y), with the sign of x. -/
def Mod (x y : ℝ) : ℝ := x - y * (toInt (x / y) : ℝ)

/-- Go `math.Atan2(y, x)`: the angle of the point (x, y) in (−π, π]. -/
def Atan2 (y x : ℝ) : ℝ :=
  if 0 < x then Real.arctan (y / x)
  else if x < 0 then
    if 0 ≤ y then Real.arctan (y / x) + Real.pi else Real.arctan (y / x) - Real.pi
  else
    if 0 < y then Real.pi / 2 else if y < 0 then -(Real.pi / 2) else 0

end gomath

namespace render

open vectors colors

/-- Go `render.Clip`: clamps x into the inclusive range [lo, hi]. -/
def Clip (x lo hi : ℝ) : ℝ :=
  if x < lo then lo
  else if x > hi then hi
  else x

/-- Go `render.Smoothstep`: Hermite interpolation between 0 and 1 across
[edge0, edge1], with the degenerate equal-edges case handled as a step. -/
def Smoothstep (edge0 edge1 x : ℝ) : ℝ :=
  if edge0 = edge1 then
    if x < edge0 then 0 else 1
  else
    let t := (x - edge0) / (edge1 - edge0)
    let t := if t < 0 then 0 else if t > 1 then 1 else t
    t * t * (3 - 2 * t)

/-- Go `render.Lerp`. -/
def Lerp (a b t : ℝ) : ℝ := a + (b - a) * t

/-- Result triple of the Go intersection routines `(bool, float64, float64)`. -/
structure SphereHit where
  hit : Bool
  tNear : ℝ
  tFar : ℝ

/-- Go `render.intersectSphereForward` (the variant that clamps `t0` to 0):
ray–sphere intersection against a sphere of the given radius centered at the
origin, rejecting intersections entirely behind the ray origin. -/
def intersectSphereForward (origin dir : Vec3) (radius : ℝ) : SphereHit :=
  let oc := origin
  let a := dir.Dot dir
  let b := 2 * oc.Dot dir
  let c := oc.Dot oc - radius * radius
  let discriminant := b * b - 4 * a * c
  if discriminant < 0 then ⟨false, 0, 0⟩
  else
    let sqrtD := Real.sqrt discriminant
    let t0 := (-b - sqrtD) / (2 * a)
    let t1 := (-b + sqrtD) / (2 * a)
    if t1 < 0 then ⟨false, 0, 0⟩
    else
      let t0 := if t0 < 0 then 0 else t0
      ⟨true, t0, t1⟩

/-- The coefficient `b` of the ray–sphere quadratic, as computed in
`intersectSphereForward`. -/
def sphereB (origin dir : Vec3) : ℝ := 2 * origin.Dot dir

/-- The coefficient `c` of the ray–sphere quadratic. -/
def sphereC (origin : Vec3) (radius : ℝ) : ℝ := origin.Dot origin - radius * radius

/-- The discriminant of the ray–sphere quadratic. -/
def sphereDisc (origin dir : Vec3) (radius : ℝ) : ℝ :=
  sphereB origin dir * sphereB origin dir - 4 * dir.Dot dir * sphereC origin radius

/-- The near root `t0` of the ray–sphere quadratic, before clamping. -/
def sphereT0 (origin dir : Vec3) (radius : ℝ) : ℝ :=
  (-sphereB origin dir - Real.sqrt (sphereDisc origin dir radius)) / (2 * dir.Dot dir)

/-- The far root `t1` of the ray–sphere quadratic. -/
def sphereT1 (origin dir : Vec3) (radius : ℝ) : ℝ :=
  (-sphereB origin dir + Real.sqrt (sphereDisc origin dir radius)) / (2 * dir.Dot dir)

/-- Go `render.intersectHalfCylinderForward`: ray intersection with the
half-cylinder of the given radius whose axis runs along `axisDir` through the
origin; only intersection points on the forward side of the axis (nonnegative
dot product with the axis direction) are accepted. -/
def intersectHalfCylinderForward (origin dir axisDir : Vec3) (radius : ℝ) : SphereHit :=
  let V := axisDir
  let CO := origin
  let dDotV := dir.Dot V
  let dPerp := dir.Sub (V.Scale dDotV)
  let coDotV := CO.Dot V
  let coPerp := CO.Sub (V.Scale coDotV)
  let a := dPerp.Dot dPerp
  let b := 2 * dPerp.Dot coPerp
  let c := coPerp.Dot coPerp - radius * radius
  let discriminant := b * b - 4 * a * c
  if discriminant < 0 ∨ a = 0 then ⟨false, 0, 0⟩
  else
    let sqrtD := Real.sqrt discriminant
    let t0 := (-b - sqrtD) / (2 * a)
    let t1 := (-b + sqrtD) / (2 * a)
    if t1 < 0 then ⟨false, 0, 0⟩
    else
      let M1 := origin.Add (dir.Scale t0)
      if M1.Dot V < 0 then ⟨false, 0, 0⟩
      else ⟨true, max 0 t0, t1⟩

/-- The perpendicular component of the ray direction with respect to the
cylinder axis, as computed in `intersectHalfCylinderForward`. -/
def cylDPerp (dir axisDir : Vec3) : Vec3 := dir.Sub (axisDir.Scale (dir.Dot axisDir))

/-- The perpendicular component of the ray origin with respect to the
cylinder axis. -/
def cylCoPerp (origin axisDir : Vec3) : Vec3 := origin.Sub (axisDir.Scale (origin.Dot axisDir))

/-- The quadratic coefficient `a` of the ray–cylinder intersection. -/
def cylA (dir axisDir : Vec3) : ℝ := (cylDPerp dir axisDir).Dot (cylDPerp dir axisDir)

/-- The quadratic coefficient `b` of the ray–cylinder intersection. -/
def cylB (origin dir axisDir : Vec3) : ℝ :=
  2 * (cylDPerp dir axisDir).Dot (cylCoPerp origin axisDir)

/-- The quadratic coefficient `c` of the ray–cylinder intersection. -/
def cylC (origin axisDir : Vec3) (radius : ℝ) : ℝ :=
  (cylCoPerp origin axisDir).Dot (cylCoPerp origin axisDir) - radius * radius

/-- The discriminant of the ray–cylinder quadratic. -/
def cylDisc (origin dir axisDir : Vec3) (radius : ℝ) : ℝ :=
  cylB origin dir axisDir * cylB origin dir axisDir
    - 4 * cylA dir axisDir * cylC origin axisDir radius

/-- The near root `t0` of the ray–cylinder quadratic. -/
def cylT0 (origin dir axisDir : Vec3) (radius : ℝ) : ℝ :=
  (-cylB origin dir axisDir - Real.sqrt (cylDisc origin dir axisDir radius))
    / (2 * cylA dir axisDir)

/-- Go `render.Theme` (latest iteration): named colors plus texture paths. -/
structure Theme where
  DayRim : Color4
  NightRim : Color4
  OuterRim : Color4
  Warm : Color4
  Day : String
  Night : String
  Clouds : String

/-- Go `render.Texture`: an image with integer dimensions; the decoded pixel
grid (`img.At` composed with the color conversion) is abstracted as a
function from integer coordinates to colors. -/
structure Texture where
  Width : ℤ
  Height : ℤ
  img : ℤ → ℤ → Color4

/-- The index clamping performed by Go `Texture.getColorAtXY`: indices below 0
go to 0 and indices at or above the extent go to the last texel. -/
def clampIdx (w x : ℤ) : ℤ := if x < 0 then 0 else if w ≤ x then w - 1 else x

/-- Go `Texture.getColorAtXY`: clamped nearest-neighbor pixel access. -/
def Texture.getColorAtXY (t : Texture) (x y : ℤ) : Color4 :=
  t.img (clampIdx t.Width x) (clampIdx t.Height y)

/-- Go `Texture.getXY`: longitude/latitude projection of an ECEF point into
texel coordinates. -/
def Texture.getXY (t : Texture) (P : Vec3) : ℤ × ℤ :=
  let px := P.X
  let py := P.Y
  let pz := P.Z
  let lat := gomath.Atan2 pz (Real.sqrt (px * px + py * py))
  let lon := gomath.Atan2 py px
  let lon := if lon < 0 then lon + 2 * Real.pi else lon
  let u := (t.Width : ℝ) / 2 + lon / (2 * Real.pi) * ((t.Width : ℝ) - 1)
  let u := gomath.Mod u (t.Width : ℝ)
  let u := if u < 0 then u + (t.Width : ℝ) else u
  let v := (0.5 - lat / Real.pi) * ((t.Height : ℝ) - 1)
  (gomath.toInt u, gomath.toInt v)

/-- Go `Texture.Sample`: lon-lat projection followed by nearest-neighbor
lookup. -/
def Texture.Sample (t : Texture) (P : Vec3) : Color4 :=
  t.getColorAtXY (t.getXY P).1 (t.getXY P).2

/-- The longitude computed by `Texture.getXY`, shifted into [0, 2π). -/
def lonAdj (P : Vec3) : ℝ :=
  let lon := gomath.Atan2 P.Y P.X
  if lon < 0 then lon + 2 * Real.pi else lon

/-- The latitude computed by `Texture.getXY`. -/
def latOf (P : Vec3) : ℝ := gomath.Atan2 P.Z (Real.sqrt (P.X * P.X + P.Y * P.Y))

/-- The texel column `Texture.getXY` derives from a (shifted) longitude. -/
def texColumn (W : ℤ) (lon : ℝ) : ℤ :=
  let u := (W : ℝ) / 2 + lon / (2 * Real.pi) * ((W : ℝ) - 1)
  let u := gomath.Mod u (W : ℝ)
  let u := if u < 0 then u + (W : ℝ) else u
  gomath.toInt u

/-- The texel row `Texture.getXY` derives from a latitude. -/
def texRow (H : ℤ) (lat : ℝ) : ℤ :=
  gomath.toInt ((0.5 - lat / Real.pi) * ((H : ℝ) - 1))

/-- Go `render.RayContext` (latest iteration): scene-fixed fields `Origin`,
`SunDir`, `GlobalSunFraction`, `theme` and the three textures, plus the
per-ray derived fields overwritten by `SetRayDirection`. -/
structure RayContext where
  Origin : Vec3
  SunDir : Vec3
  GlobalSunFraction : ℝ
  RayDir : Vec3
  TEarth : ℝ
  SurfaceNormal : Vec3
  HitPoint : Vec3
  HitEarth : Bool
  ViewDotNormal : ℝ
  theme : Theme
  TexDay : Texture
  TexNight : Texture
  TexClouds : Texture
  HitsAtmosphere : Bool
  AtmosphereEntryT : ℝ
  AtmosphereExitT : ℝ
  HitsEarthShadow : Bool
  EarthShadowEntryT : ℝ
  EarthShadowExitT : ℝ

/-- Go `render.NewRayContext`: fresh context with only the scene-fixed fields
set; all per-ray fields start at Go zero values. -/
def NewRayContext (origin sunDir : Vec3) (theme : Theme)
    (texDay texNight texClouds : Texture) : RayContext :=
  { Origin := origin
    SunDir := sunDir
    GlobalSunFraction := 0
    RayDir := ⟨0, 0, 0⟩
    TEarth := 0
    SurfaceNormal := ⟨0, 0, 0⟩
    HitPoint := ⟨0, 0, 0⟩
    HitEarth := false
    ViewDotNormal := 0
    theme := theme
    TexDay := texDay
    TexNight := texNight
    TexClouds := texClouds
    HitsAtmosphere := false
    AtmosphereEntryT := 0
    AtmosphereExitT := 0
    HitsEarthShadow := false
    EarthShadowEntryT := 0
    EarthShadowExitT := 0 }

/-- Go `RayContext.SetRayDirection` (latest iteration): recomputes every
per-ray field from the earth intersection, the atmosphere-shell intersection
(clamped to the earth hit), and the shadow-cylinder intersection (clamped
likewise). -/
def SetRayDirection (c : RayContext) (rayDirection : Vec3) : RayContext :=
  let e := intersectSphereForward c.Origin rayDirection earth.Radius
  let hitEarth := e.hit
  let tEarth := e.tNear
  let hitPoint := if hitEarth then c.Origin.Add (rayDirection.Scale tEarth) else Zero
  let surfaceNormal := if hitEarth then hitPoint.Normalize else Zero
  let viewDotNormal := if hitEarth then -(surfaceNormal.Dot rayDirection) else 0
  let a := intersectSphereForward c.Origin rayDirection earth.RadiusWithAtmosphere
  let atmosphereEntryT := if a.hit && hitEarth then min a.tNear tEarth else a.tNear
  let atmosphereExitT := if a.hit && hitEarth then min a.tFar tEarth else a.tFar
  let s := intersectHalfCylinderForward c.Origin rayDirection (c.SunDir.Scale (-1)) earth.Radius
  let earthShadowEntryT := if s.hit && hitEarth then min s.tNear tEarth else s.tNear
  let earthShadowExitT := if s.hit && hitEarth then min s.tFar tEarth else s.tFar
  { c with
    RayDir := rayDirection
    HitEarth := hitEarth
    TEarth := tEarth
    HitPoint := hitPoint
    SurfaceNormal := surfaceNormal
    ViewDotNormal := viewDotNormal
    HitsAtmosphere := a.hit
    AtmosphereEntryT := atmosphereEntryT
    AtmosphereExitT := atmosphereExitT
    HitsEarthShadow := s.hit
    EarthShadowEntryT := earthShadowEntryT
    EarthShadowExitT := earthShadowExitT }

/-- Go `render.BlendNightDayEnergyConserving`: per-channel root-sum-of-squares
blend of the day and night colors, alpha fixed to 1. -/
def BlendNightDayEnergyConserving (CDay CNight : Color4) (light : ℝ) : Color4 :=
  let r := Real.sqrt ((1 - light) * CNight.R * CNight.R + light * CDay.R * CDay.R)
  let g := Real.sqrt ((1 - light) * CNight.G * CNight.G + light * CDay.G * CDay.G)
  let b := Real.sqrt ((1 - light) * CNight.B * CNight.B + light * CDay.B * CDay.B)
  ⟨r, g, b, 1⟩

/-- Go `render.IsOcean`: blue channel dominant over red and green by the
threshold ratio. -/
def IsOcean (color : Color4) (blueThreshold : ℝ) : Prop :=
  color.B > color.R * blueThreshold ∧ color.B > color.G * blueThreshold

instance instDecidableIsOcean (color : Color4) (blueThreshold : ℝ) :
    Decidable (IsOcean color blueThreshold) := by
  unfold IsOcean
  infer_instance

/-- Go `render.ApplyAtmosphereOverlay` (latest iteration): atmospheric
scattering along the view ray, skipped when the ray misses the atmosphere
shell. -/
def ApplyAtmosphereOverlay (ctx : RayContext) (base : Color4) : Color4 :=
  let H := 55
  let rayleighStrength := 0.2
  if !ctx.HitsAtmosphere then base
  else
    let viewDot := ctx.ViewDotNormal
    let rimAmount := (1 - viewDot) ^ 3 * 0.3
    let rimColor := ctx.theme.DayRim.Mix ctx.theme.OuterRim rimAmount
    let s := intersectHalfCylinderForward ctx.Origin ctx.RayDir (ctx.SunDir.Scale (-1)) earth.Radius
    let litLen := ctx.AtmosphereExitT - ctx.AtmosphereEntryT
    let unlitLen := 0
    let p :=
      if s.hit then
        let shadowStart := max ctx.AtmosphereEntryT s.tNear
        let shadowEnd := min ctx.AtmosphereExitT s.tFar
        if shadowEnd > shadowStart then
          let shadowLen := shadowEnd - shadowStart
          if litLen > shadowLen ∧ ctx.HitEarth = false then (litLen, unlitLen)
          else (litLen - shadowLen, unlitLen + shadowLen)
        else (litLen, unlitLen)
      else (litLen, unlitLen)
    let litLen := p.1
    let unlitLen := p.2
    if litLen ≤ 0 ∧ unlitLen ≤ 0 then base.Add rimColor
    else
      let tMid := (ctx.AtmosphereExitT + ctx.AtmosphereEntryT) * 0.5
      let midPoint := ctx.Origin.Add (ctx.RayDir.Scale tMid)
      let avgHeight := midPoint.Norm - earth.Radius
      let avgDensity := Real.exp (-avgHeight / H)
      let litAmount := Real.log (litLen + unlitLen) * avgDensity * rayleighStrength
      let litAmount := Clip litAmount 0 1
      let litAmount := if ctx.HitEarth = false then litAmount * 0.5 else litAmount
      let viewToSun := ctx.SunDir.Dot ctx.RayDir
      let sunAngle := (1 - viewToSun) * 0.5
      let litAmount :=
        if ctx.HitEarth = false ∧ sunAngle > 0.5 then litAmount * Smoothstep 0.54 0.5 sunAngle
        else litAmount
      let skyColor : Color4 :=
        ⟨Lerp 1 ctx.theme.DayRim.R sunAngle,
         Lerp 1 ctx.theme.DayRim.G sunAngle,
         Lerp 1 ctx.theme.DayRim.B sunAngle,
         ctx.theme.DayRim.A⟩
      let wNight := unlitLen / (litLen + unlitLen + 1e-5)
      let tint := skyColor.Mix ctx.theme.NightRim wNight
      base.Mix tint litAmount

end render

namespace render1

open vectors colors

/-- Go `render.Theme` of the earlier iteration (sky-rim color variant). -/
structure Theme where
  SkyRim : Color4
  DayRim : Color4
  Warm : Color4
  Day : String
  Night : String
  Clouds : String

/-- Go `render.RayContext` of the earlier iteration: carries
`SunLightIntensity`, `DistToCenter`, `RimLightFactor` and the single earth-hit
parameter `T`. -/
structure RayContext where
  Origin : Vec3
  SunDir : Vec3
  AltitudeKm : ℝ
  RayDirection : Vec3
  DistToCenter : ℝ
  T : ℝ
  HitPoint : Vec3
  SurfaceNormal : Vec3
  RimLightFactor : ℝ
  SunLightIntensity : ℝ
  ViewDotNormal : ℝ
  theme : Theme
  TexDay : render.Texture
  TexNight : render.Texture
  TexClouds : render.Texture
  InsideAtmosphere : Bool
  AtmosphereEntryT : ℝ
  AtmosphereExitT : ℝ

/-- Go `render.ApplySpecularHighlight` of the earlier iteration: Blinn-Phong
glint applied only on ocean-classified day texels of a sunlit surface. -/
def ApplySpecularHighlight (ctx : RayContext) (Crgb Cday : Color4) : Color4 :=
  if ¬ render.IsOcean Cday 1.05 then Crgb
  else if ctx.SunLightIntensity ≤ 0 then Crgb
  else
    let halfVec := (ctx.SunDir.Sub ctx.RayDirection).Normalize
    let specAngle := ctx.SurfaceNormal.Dot halfVec
    if specAngle ≤ 0 then Crgb
    else
      let specular := specAngle ^ 20
      let oceanReflectivity := render.Clip Cday.B 0.2 1
      let strength := specular * oceanReflectivity * 0.8
      if strength > 0 then Crgb.Add (White.Scale strength) else Crgb

end render1

namespace render0

open vectors colors

/-- Go `render.ApplySpecularHighlight` of the earliest iteration: gated only
on `SunLightIntensity`, with a soft ocean factor derived from the day color
instead of an ocean classification test. -/
def ApplySpecularHighlight (ctx : render1.RayContext) (Crgb Cday : Color4) : Color4 :=
  if ctx.SunLightIntensity ≤ 0 then Crgb
  else
    let view := (ctx.RayDirection.Scale (-1)).Normalize
    let light := ctx.SunDir.Normalize
    let halfVec := (view.Add light).Normalize
    let specAngle := render.Clip (ctx.SurfaceNormal.Dot halfVec) 0 1
    let specular := specAngle ^ 30
    let oceanFactor := render.Clip ((Cday.B - 0.5 * (Cday.R + Cday.G)) * 10) 0 1
    let fresnel := (1 - ctx.ViewDotNormal) ^ 2
    let reflectivity := oceanFactor
    let strength := specular * reflectivity * (0.2 + 0.8 * fresnel)
    let sunColor : Color4 := ⟨1, 0.97, 0.9, 1⟩
    Crgb.Add (sunColor.Scale strength)

end render0

/-- The cubic Hermite polynomial `t²(3−2t)` used by `Smoothstep` after
clamping. -/
def hermite (t : ℝ) : ℝ := t * t * (3 - 2 * t)

/-- A concrete theme used for instantiating theorems at concrete inputs. -/
def theme0 : render.Theme := ⟨colors.Black, colors.Black, colors.Black, colors.White, "", "", ""⟩

/-- A concrete 1×1 texture. -/
def tex0 : render.Texture := ⟨1, 1, fun _ _ => colors.Black⟩

/-- A concrete 8×4 texture. -/
def tex8 : render.Texture := ⟨8, 4, fun _ _ => colors.Black⟩

/-- A fresh concrete ray context: camera two Earth radii from the center,
sun along the x axis. -/
def ctx0 : render.RayContext :=
  render.NewRayContext ⟨0, 0, 12742⟩ ⟨1, 0, 0⟩ theme0 tex0 tex0 tex0

/-- A context with the scene-fixed fields of `ctx0` but scrambled per-ray
fields, as if previous rays had been traced through it. -/
def ctx1 : render.RayContext :=
  { ctx0 with
    RayDir := ⟨1, 0, 0⟩
    TEarth := 42
    HitEarth := true
    ViewDotNormal := 0.5
    HitsAtmosphere := true
    AtmosphereEntryT := 7
    AtmosphereExitT := 9
    HitsEarthShadow := true
    EarthShadowEntryT := 3
    EarthShadowExitT := 4 }

/-- A concrete earlier-iteration theme. -/
def theme1 : render1.Theme := ⟨colors.Black, colors.Black, colors.White, "", "", ""⟩

/-- A concrete earlier-iteration ray context: surface point straight below the
camera, sun at the zenith. -/
def ctxSpec : render1.RayContext :=
  { Origin := ⟨0, 0, 0⟩
    SunDir := ⟨0, 0, 1⟩
    AltitudeKm := 0
    RayDirection := ⟨0, 0, -1⟩
    DistToCenter := 0
    T := 1
    HitPoint := ⟨0, 0, 0⟩
    SurfaceNormal := ⟨0, 0, 1⟩
    RimLightFactor := 0
    SunLightIntensity := 1
    ViewDotNormal := 1
    theme := theme1
    TexDay := tex0
    TexNight := tex0
    TexClouds := tex0
    InsideAtmosphere := false
    AtmosphereEntryT := 0
    AtmosphereExitT := 0 }

namespace vectors

lemma Vec3.Dot_self_nonneg (v : Vec3) : 0 ≤ v.Dot v := by
  unfold Vec3.Dot
  nlinarith [sq_nonneg v.X, sq_nonneg v.Y, sq_nonneg v.Z]

end vectors

namespace render

open vectors colors

lemma sphereT0_le_sphereT1 (origin dir : Vec3) (radius : ℝ) :
    sphereT0 origin dir radius ≤ sphereT1 origin dir radius := by
  unfold sphereT0 sphereT1
  rcases eq_or_lt_of_le (Vec3.Dot_self_nonneg dir) with h | h
  · rw [← h]
    norm_num
  · apply div_le_div_of_nonneg_right _ (by linarith)
    have := Real.sqrt_nonneg (sphereDisc origin dir radius)
    linarith

lemma intersectSphereForward_hit_iff (origin dir : Vec3) (radius : ℝ) :
    (intersectSphereForward origin dir radius).hit = false ↔
      sphereDisc origin dir radius < 0 ∨ sphereT1 origin dir radius < 0 := by
  simp only [intersectSphereForward, sphereT1, sphereDisc, sphereB, sphereC]
  split
  · simp_all
  · split
    · simp_all
    · simp_all

lemma intersectSphereForward_of_hit (origin dir : Vec3) (radius : ℝ)
    (h : (intersectSphereForward origin dir radius).hit = true) :
    (intersectSphereForward origin dir radius).tFar = sphereT1 origin dir radius
    ∧ (intersectSphereForward origin dir radius).tNear =
        (if sphereT0 origin dir radius < 0 then 0 else sphereT0 origin dir radius) := by
  simp only [intersectSphereForward, sphereT1, sphereT0, sphereDisc, sphereB, sphereC] at h ⊢
  split_ifs at h ⊢ <;> simp_all

lemma intersectSphereForward_tNear_le_tFar (origin dir : Vec3) (radius : ℝ) :
    (intersectSphereForward origin dir radius).tNear ≤
      (intersectSphereForward origin dir radius).tFar := by
  rcases h : (intersectSphereForward origin dir radius).hit with _ | _
  · simp only [intersectSphereForward] at h ⊢
    split_ifs at h ⊢ <;> simp_all
  · have hne : ¬ (sphereDisc origin dir radius < 0 ∨ sphereT1 origin dir radius < 0) := by
      rw [← intersectSphereForward_hit_iff]
      simp [h]
    push_neg at hne
    obtain ⟨hd, ht1⟩ := hne
    obtain ⟨hf, hn⟩ := intersectSphereForward_of_hit origin dir radius h
    rw [hf, hn]
    split
    · linarith
    · exact sphereT0_le_sphereT1 origin dir radius

lemma intersectHalfCylinderForward_a_eq_zero (origin dir axisDir : Vec3) (radius : ℝ)
    (ha : cylA dir axisDir = 0) :
    (intersectHalfCylinderForward origin dir axisDir radius).hit = false := by
  simp only [cylA, cylDPerp] at ha
  simp only [intersectHalfCylinderForward]
  split_ifs with h1 <;> simp_all

lemma intersectHalfCylinderForward_hit_forward (origin dir axisDir : Vec3) (radius : ℝ)
    (h : (intersectHalfCylinderForward origin dir axisDir radius).hit = true) :
    0 ≤ (origin.Add (dir.Scale (cylT0 origin dir axisDir radius))).Dot axisDir := by
  simp only [intersectHalfCylinderForward] at h
  simp only [cylT0, cylDisc, cylB, cylA, cylC, cylDPerp, cylCoPerp]
  split_ifs at h with h1 h2 h3
  exact le_of_not_lt h3

end render

namespace render

open vectors colors

lemma sqrt_eval {a b : ℝ} (hb : 0 ≤ b) (h : a = b * b) : Real.sqrt a = b := by
  rw [h]
  exact Real.sqrt_mul_self hb

lemma sphereFwd_eval_small : intersectSphereForward ⟨0, 0, 2⟩ ⟨0, 0, -1⟩ 1 = ⟨true, 1, 3⟩ := by
  have h4 : Real.sqrt 4 = 2 := sqrt_eval (by norm_num) (by norm_num)
  simp only [intersectSphereForward, Vec3.Dot]
  norm_num [h4]

lemma sphereFwd_eval_earth :
    intersectSphereForward ⟨0, 0, 12742⟩ ⟨0, 0, -1⟩ earth.Radius = ⟨true, 6371, 19113⟩ := by
  have hs : Real.sqrt 162358564 = 12742 := sqrt_eval (by norm_num) (by norm_num)
  simp only [intersectSphereForward, Vec3.Dot, earth.Radius]
  norm_num [hs]

lemma sphereFwd_eval_atmo :
    intersectSphereForward ⟨0, 0, 12742⟩ ⟨0, 0, -1⟩ earth.RadiusWithAtmosphere
      = ⟨true, 6251, 19233⟩ := by
  have hs : Real.sqrt 168532324 = 12982 := sqrt_eval (by norm_num) (by norm_num)
  simp only [intersectSphereForward, Vec3.Dot, earth.RadiusWithAtmosphere, earth.Radius]
  norm_num [hs]

lemma sphereFwd_eval_miss :
    intersectSphereForward ⟨0, 0, 12742⟩ ⟨0, 0, 1⟩ earth.RadiusWithAtmosphere
      = ⟨false, 0, 0⟩ := by
  have hs : Real.sqrt 168532324 = 12982 := sqrt_eval (by norm_num) (by norm_num)
  simp only [intersectSphereForward, Vec3.Dot, earth.RadiusWithAtmosphere, earth.Radius]
  norm_num [hs]

end render

namespace render

lemma smoothstep_eq_hermite (edge0 edge1 x : ℝ) (h : edge0 ≠ edge1) :
    Smoothstep edge0 edge1 x = hermite (max 0 (min 1 ((x - edge0) / (edge1 - edge0)))) := by
  simp only [Smoothstep, hermite, if_neg h]
  have hc : (if (x - edge0) / (edge1 - edge0) < 0 then (0:ℝ)
      else if (x - edge0) / (edge1 - edge0) > 1 then 1 else (x - edge0) / (edge1 - edge0))
      = max 0 (min 1 ((x - edge0) / (edge1 - edge0))) := by
    split_ifs with hlt hgt
    · rw [eq_comm, max_eq_left (le_trans (min_le_right _ _) hlt.le)]
    · rw [min_eq_left hgt.le, eq_comm, max_eq_right zero_le_one]
    · rw [min_eq_right (not_lt.mp hgt), eq_comm, max_eq_right (not_lt.mp hlt)]
  rw [hc]

lemma hermite_mono_on {s t : ℝ} (hs : 0 ≤ s) (hst : s ≤ t) (ht : t ≤ 1) :
    hermite s ≤ hermite t := by
  unfold hermite
  have hs1 : s ≤ 1 := le_trans hst ht
  have ht0 : 0 ≤ t := le_trans hs hst
  have k3 : 0 ≤ t * (1 - s) := mul_nonneg ht0 (by linarith)
  have k4 : 0 ≤ s * (1 - t) := mul_nonneg hs (by linarith)
  have key : 0 ≤ 3 * (t + s) - 2 * (t * t + t * s + s * s) := by nlinarith
  nlinarith [mul_nonneg (sub_nonneg.mpr hst) key]

lemma smoothstep_clamp_mem (edge0 edge1 x : ℝ) :
    0 ≤ max 0 (min 1 ((x - edge0) / (edge1 - edge0)))
    ∧ max 0 (min 1 ((x - edge0) / (edge1 - edge0))) ≤ 1 := by
  constructor
  · exact le_max_left 0 _
  · exact max_le zero_le_one (min_le_left 1 _)

lemma smoothstep_monotone {edge0 edge1 : ℝ} (h : edge0 < edge1) :
    Monotone (Smoothstep edge0 edge1) := by
  intro x1 x2 hx
  rw [smoothstep_eq_hermite edge0 edge1 x1 (ne_of_lt h),
    smoothstep_eq_hermite edge0 edge1 x2 (ne_of_lt h)]
  have hq : (x1 - edge0) / (edge1 - edge0) ≤ (x2 - edge0) / (edge1 - edge0) :=
    div_le_div_of_nonneg_right (by linarith) (by linarith)
  have hmm : max 0 (min 1 ((x1 - edge0) / (edge1 - edge0)))
      ≤ max 0 (min 1 ((x2 - edge0) / (edge1 - edge0))) :=
    max_le_max le_rfl (min_le_min le_rfl hq)
  exact hermite_mono_on (smoothstep_clamp_mem edge0 edge1 x1).1 hmm
    (smoothstep_clamp_mem edge0 edge1 x2).2

lemma smoothstep_continuous {edge0 edge1 : ℝ} (h : edge0 < edge1) :
    Continuous (Smoothstep edge0 edge1) := by
  have heq : Smoothstep edge0 edge1
      = fun x => hermite (max 0 (min 1 ((x - edge0) / (edge1 - edge0)))) :=
    funext fun x => smoothstep_eq_hermite edge0 edge1 x (ne_of_lt h)
  rw [heq]
  have hherm : Continuous hermite := by
    unfold hermite
    continuity
  apply hherm.comp
  apply Continuous.max continuous_const
  apply Continuous.min continuous_const
  exact (continuous_id.sub continuous_const).div_const _

lemma smoothstep_left {edge0 edge1 x : ℝ} (h : edge0 < edge1) (hx : x ≤ edge0) :
    Smoothstep edge0 edge1 x = 0 := by
  rw [smoothstep_eq_hermite edge0 edge1 x (ne_of_lt h)]
  have hq : (x - edge0) / (edge1 - edge0) ≤ 0 :=
    div_nonpos_of_nonpos_of_nonneg (by linarith) (by linarith)
  rw [max_eq_left (le_trans (min_le_right _ _) hq)]
  unfold hermite
  ring

lemma smoothstep_right {edge0 edge1 x : ℝ} (h : edge0 < edge1) (hx : edge1 ≤ x) :
    Smoothstep edge0 edge1 x = 1 := by
  rw [smoothstep_eq_hermite edge0 edge1 x (ne_of_lt h)]
  have hq : (1:ℝ) ≤ (x - edge0) / (edge1 - edge0) := by
    rw [le_div_iff (by linarith)]
    linarith
  rw [min_eq_left hq, max_eq_right zero_le_one]
  unfold hermite
  ring

end render

open vectors colors render

/-- C2: for every origin, direction and radius, `intersectSphereForward`
returns `hit = false` exactly when the discriminant of the ray–sphere
quadratic is negative or the far root is behind the origin (`tFar < 0`);
otherwise it returns both roots, with the near root clamped to 0 when it is
negative, and the returned values satisfy `tNear ≤ tFar`. -/
theorem intersectSphereForward_spec (origin dir : Vec3) (radius : ℝ) :
    ((intersectSphereForward origin dir radius).hit = false ↔
      sphereDisc origin dir radius < 0 ∨ sphereT1 origin dir radius < 0)
    ∧ ((intersectSphereForward origin dir radius).hit = true →
        (intersectSphereForward origin dir radius).tFar = sphereT1 origin dir radius
        ∧ (intersectSphereForward origin dir radius).tNear =
            (if sphereT0 origin dir radius < 0 then 0 else sphereT0 origin dir radius)
        ∧ (intersectSphereForward origin dir radius).tNear ≤
            (intersectSphereForward origin dir radius).tFar) := by
  refine ⟨intersectSphereForward_hit_iff origin dir radius, fun h => ?_⟩
  obtain ⟨hf, hn⟩ := intersectSphereForward_of_hit origin dir radius h
  exact ⟨hf, hn, intersectSphereForward_tNear_le_tFar origin dir radius⟩

/-- Witness for C2 at a concrete forward hit from outside the sphere. -/
theorem intersectSphereForward_spec_witness :
    (intersectSphereForward ⟨0, 0, 2⟩ ⟨0, 0, -1⟩ 1).tFar = sphereT1 ⟨0, 0, 2⟩ ⟨0, 0, -1⟩ 1
    ∧ (intersectSphereForward ⟨0, 0, 2⟩ ⟨0, 0, -1⟩ 1).tNear =
        (if sphereT0 ⟨0, 0, 2⟩ ⟨0, 0, -1⟩ 1 < 0 then 0 else sphereT0 ⟨0, 0, 2⟩ ⟨0, 0, -1⟩ 1)
    ∧ (intersectSphereForward ⟨0, 0, 2⟩ ⟨0, 0, -1⟩ 1).tNear ≤
        (intersectSphereForward ⟨0, 0, 2⟩ ⟨0, 0, -1⟩ 1).tFar :=
  (intersectSphereForward_spec ⟨0, 0, 2⟩ ⟨0, 0, -1⟩ 1).2 (by rw [sphereFwd_eval_small])

/-- C3: `intersectHalfCylinderForward` reports no hit in the degenerate case
`a = 0` (ray parallel to the axis), and it accepts an intersection only when
the candidate intersection point has a nonnegative dot product with the axis
direction; a candidate on the sun-facing side (negative dot product) is
reported as no hit. -/
theorem intersectHalfCylinderForward_spec (origin dir axisDir : Vec3) (radius : ℝ) :
    (cylA dir axisDir = 0 →
      (intersectHalfCylinderForward origin dir axisDir radius).hit = false)
    ∧ ((intersectHalfCylinderForward origin dir axisDir radius).hit = true →
        0 ≤ (origin.Add (dir.Scale (cylT0 origin dir axisDir radius))).Dot axisDir)
    ∧ ((origin.Add (dir.Scale (cylT0 origin dir axisDir radius))).Dot axisDir < 0 →
        (intersectHalfCylinderForward origin dir axisDir radius).hit = false) := by
  refine ⟨intersectHalfCylinderForward_a_eq_zero origin dir axisDir radius, 
    intersectHalfCylinderForward_hit_forward origin dir axisDir radius, fun hdot => ?_⟩
  rcases hhit : (intersectHalfCylinderForward origin dir axisDir radius).hit with _ | _
  · rfl
  · exact absurd (intersectHalfCylinderForward_hit_forward origin dir axisDir radius hhit)
      (not_le.mpr hdot)

/-- Witness for C3 on a concrete ray running parallel to the axis. -/
theorem intersectHalfCylinderForward_spec_witness :
    (intersectHalfCylinderForward ⟨2, 0, 0⟩ ⟨0, 0, 1⟩ ⟨0, 0, 1⟩ 1).hit = false :=
  (intersectHalfCylinderForward_spec ⟨2, 0, 0⟩ ⟨0, 0, 1⟩ ⟨0, 0, 1⟩ 1).1
    (by norm_num [cylA, cylDPerp, Vec3.Dot, Vec3.Sub, Vec3.Scale])

/-- C4 counterexample: the claim as stated fails for reversed edges.  With
`a = 1 > b = 0` and `x = 0` we have `x ≤ min a b`, yet `Smoothstep a b x`
evaluates to 1, not 0 (the function is reversed, not zero, below `min a b`). -/
theorem smoothstep_minmax_counterexample :
    (0:ℝ) ≤ min (1:ℝ) (0:ℝ) ∧ Smoothstep 1 0 0 = 1 := by
  constructor
  · norm_num
  · norm_num [Smoothstep]

/-- C4 (amended): for ordered edges `a < b`, `Smoothstep a b x` is 0 for
`x ≤ a`, 1 for `x ≥ b`, and monotone and continuous in between; when `a = b`
it degenerates to a step function (0 below the edge, 1 at and above it).  For
reversed edges `a > b` the claimed normalization does not hold (see the
counterexample), so the claim is amended to ordered edges. -/
theorem smoothstep_correct (a b x : ℝ) :
    (a < b →
      (x ≤ a → Smoothstep a b x = 0)
      ∧ (b ≤ x → Smoothstep a b x = 1)
      ∧ Monotone (Smoothstep a b)
      ∧ Continuous (Smoothstep a b))
    ∧ (a = b → Smoothstep a b x = if x < a then 0 else 1) := by
  constructor
  · intro h
    exact ⟨fun hx => smoothstep_left h hx, fun hx => smoothstep_right h hx,
      smoothstep_monotone h, smoothstep_continuous h⟩
  · intro h
    simp [Smoothstep, h]

/-- Witness for C4 (amended) at concrete edges and sample points. -/
theorem smoothstep_correct_witness :
    Smoothstep 0 1 (-1) = 0 ∧ Smoothstep 0 1 2 = 1 ∧ Smoothstep 2 2 5 = 1 := by
  refine ⟨((smoothstep_correct 0 1 (-1)).1 (by norm_num)).1 (by norm_num),
    (((smoothstep_correct 0 1 2).1 (by norm_num)).2).1 (by norm_num), ?_⟩
  have h := (smoothstep_correct 2 2 5).2 rfl
  rw [h]
  norm_num

/-- C10: `BoostSaturation` preserves the mean of the R, G, B channels exactly
and leaves the alpha component unchanged, for every color and factor. -/
theorem boostSaturation_mean_alpha (c : Color4) (f : ℝ) :
    ((c.BoostSaturation f).R + (c.BoostSaturation f).G + (c.BoostSaturation f).B) / 3
        = (c.R + c.G + c.B) / 3
    ∧ (c.BoostSaturation f).A = c.A := by
  simp only [Color4.BoostSaturation]
  constructor
  · ring
  · trivial

/-- C1: every per-ray field produced by `SetRayDirection` is a pure function
of (origin, sun direction, ray direction): two contexts agreeing on the
scene-fixed origin and sun direction — regardless of their per-ray fields,
i.e. regardless of which directions were set before — produce identical
values for every per-ray derived field, and `SetRayDirection` never alters
the scene-fixed origin and sun direction. -/
theorem setRayDirection_pure (c1 c2 : render.RayContext) (d : Vec3)
    (hO : c1.Origin = c2.Origin) (hS : c1.SunDir = c2.SunDir) :
    ((SetRayDirection c1 d).Origin = c1.Origin ∧ (SetRayDirection c1 d).SunDir = c1.SunDir)
    ∧ (SetRayDirection c1 d).RayDir = (SetRayDirection c2 d).RayDir
    ∧ (SetRayDirection c1 d).TEarth = (SetRayDirection c2 d).TEarth
    ∧ (SetRayDirection c1 d).HitEarth = (SetRayDirection c2 d).HitEarth
    ∧ (SetRayDirection c1 d).HitPoint = (SetRayDirection c2 d).HitPoint
    ∧ (SetRayDirection c1 d).SurfaceNormal = (SetRayDirection c2 d).SurfaceNormal
    ∧ (SetRayDirection c1 d).ViewDotNormal = (SetRayDirection c2 d).ViewDotNormal
    ∧ (SetRayDirection c1 d).HitsAtmosphere = (SetRayDirection c2 d).HitsAtmosphere
    ∧ (SetRayDirection c1 d).AtmosphereEntryT = (SetRayDirection c2 d).AtmosphereEntryT
    ∧ (SetRayDirection c1 d).AtmosphereExitT = (SetRayDirection c2 d).AtmosphereExitT
    ∧ (SetRayDirection c1 d).HitsEarthShadow = (SetRayDirection c2 d).HitsEarthShadow
    ∧ (SetRayDirection c1 d).EarthShadowEntryT = (SetRayDirection c2 d).EarthShadowEntryT
    ∧ (SetRayDirection c1 d).EarthShadowExitT = (SetRayDirection c2 d).EarthShadowExitT := by
  simp only [SetRayDirection, hO, hS]
  norm_num

/-- Witness for C1: a context scrambled by earlier rays against the fresh
context with the same origin and sun direction. -/
theorem setRayDirection_pure_witness :
    ((SetRayDirection ctx1 ⟨0, 0, -1⟩).Origin = ctx1.Origin
      ∧ (SetRayDirection ctx1 ⟨0, 0, -1⟩).SunDir = ctx1.SunDir)
    ∧ (SetRayDirection ctx1 ⟨0, 0, -1⟩).RayDir = (SetRayDirection ctx0 ⟨0, 0, -1⟩).RayDir
    ∧ (SetRayDirection ctx1 ⟨0, 0, -1⟩).TEarth = (SetRayDirection ctx0 ⟨0, 0, -1⟩).TEarth
    ∧ (SetRayDirection ctx1 ⟨0, 0, -1⟩).HitEarth = (SetRayDirection ctx0 ⟨0, 0, -1⟩).HitEarth
    ∧ (SetRayDirection ctx1 ⟨0, 0, -1⟩).HitPoint = (SetRayDirection ctx0 ⟨0, 0, -1⟩).HitPoint
    ∧ (SetRayDirection ctx1 ⟨0, 0, -1⟩).SurfaceNormal
        = (SetRayDirection ctx0 ⟨0, 0, -1⟩).SurfaceNormal
    ∧ (SetRayDirection ctx1 ⟨0, 0, -1⟩).ViewDotNormal
        = (SetRayDirection ctx0 ⟨0, 0, -1⟩).ViewDotNormal
    ∧ (SetRayDirection ctx1 ⟨0, 0, -1⟩).HitsAtmosphere
        = (SetRayDirection ctx0 ⟨0, 0, -1⟩).HitsAtmosphere
    ∧ (SetRayDirection ctx1 ⟨0, 0, -1⟩).AtmosphereEntryT
        = (SetRayDirection ctx0 ⟨0, 0, -1⟩).AtmosphereEntryT
    ∧ (SetRayDirection ctx1 ⟨0, 0, -1⟩).AtmosphereExitT
        = (SetRayDirection ctx0 ⟨0, 0, -1⟩).AtmosphereExitT
    ∧ (SetRayDirection ctx1 ⟨0, 0, -1⟩).HitsEarthShadow
        = (SetRayDirection ctx0 ⟨0, 0, -1⟩).HitsEarthShadow
    ∧ (SetRayDirection ctx1 ⟨0, 0, -1⟩).EarthShadowEntryT
        = (SetRayDirection ctx0 ⟨0, 0, -1⟩).EarthShadowEntryT
    ∧ (SetRayDirection ctx1 ⟨0, 0, -1⟩).EarthShadowExitT
        = (SetRayDirection ctx0 ⟨0, 0, -1⟩).EarthShadowExitT :=
  setRayDirection_pure ctx1 ctx0 ⟨0, 0, -1⟩ rfl rfl

/-- C5: after a `SetRayDirection` call in which the ray hits both the earth
and the atmosphere shell, the stored atmosphere segment is clamped so as not
to extend past the earth hit: entry ≤ exit ≤ TEarth. -/
theorem atmosphere_bounds_clamped (c : render.RayContext) (d : Vec3)
    (hE : (SetRayDirection c d).HitEarth = true)
    (hA : (SetRayDirection c d).HitsAtmosphere = true) :
    (SetRayDirection c d).AtmosphereEntryT ≤ (SetRayDirection c d).AtmosphereExitT
    ∧ (SetRayDirection c d).AtmosphereExitT ≤ (SetRayDirection c d).TEarth := by
  have hE' : (intersectSphereForward c.Origin d earth.Radius).hit = true := hE
  have hA' : (intersectSphereForward c.Origin d earth.RadiusWithAtmosphere).hit = true := hA
  simp only [SetRayDirection, hE', hA', Bool.and_self, if_true]
  constructor
  · exact min_le_min
      (intersectSphereForward_tNear_le_tFar c.Origin d earth.RadiusWithAtmosphere) le_rfl
  · exact min_le_right _ _

/-- Witness for C5: the nadir-pointing ray from a camera two Earth radii out
hits both the earth and the atmosphere shell. -/
theorem atmosphere_bounds_clamped_witness :
    (SetRayDirection ctx0 ⟨0, 0, -1⟩).AtmosphereEntryT
        ≤ (SetRayDirection ctx0 ⟨0, 0, -1⟩).AtmosphereExitT
    ∧ (SetRayDirection ctx0 ⟨0, 0, -1⟩).AtmosphereExitT
        ≤ (SetRayDirection ctx0 ⟨0, 0, -1⟩).TEarth :=
  atmosphere_bounds_clamped ctx0 ⟨0, 0, -1⟩
    (by
      show (intersectSphereForward ctx0.Origin ⟨0, 0, -1⟩ earth.Radius).hit = true
      rw [show ctx0.Origin = ⟨0, 0, 12742⟩ from rfl, sphereFwd_eval_earth])
    (by
      show (intersectSphereForward ctx0.Origin ⟨0, 0, -1⟩ earth.RadiusWithAtmosphere).hit = true
      rw [show ctx0.Origin = ⟨0, 0, 12742⟩ from rfl, sphereFwd_eval_atmo])

/-- C7: for every ray that does not intersect the atmosphere shell, the
atmosphere overlay returns the base color completely unchanged. -/
theorem applyAtmosphereOverlay_miss_id (c : render.RayContext) (d : Vec3) (base : Color4)
    (h : (intersectSphereForward c.Origin d earth.RadiusWithAtmosphere).hit = false) :
    ApplyAtmosphereOverlay (SetRayDirection c d) base = base := by
  have hA : (SetRayDirection c d).HitsAtmosphere = false := h
  simp only [ApplyAtmosphereOverlay, hA]
  norm_num

/-- Witness for C7: a zenith-pointing ray from the camera misses the
atmosphere shell and leaves a concrete base color untouched. -/
theorem applyAtmosphereOverlay_miss_id_witness :
    ApplyAtmosphereOverlay (SetRayDirection ctx0 ⟨0, 0, 1⟩) ⟨0.5, 0.25, 0.125, 1⟩
      = ⟨0.5, 0.25, 0.125, 1⟩ :=
  applyAtmosphereOverlay_miss_id ctx0 ⟨0, 0, 1⟩ ⟨0.5, 0.25, 0.125, 1⟩
    (by
      show (intersectSphereForward ctx0.Origin ⟨0, 0, 1⟩ earth.RadiusWithAtmosphere).hit = false
      rw [show ctx0.Origin = ⟨0, 0, 12742⟩ from rfl, sphereFwd_eval_miss])

/-- C6 counterexample: the earliest `ApplySpecularHighlight` variant
(`render0`, gated only on `SunLightIntensity`) adds a nonzero highlight for a
day color that fails the ocean classification at both thresholds used in the
sources (1.05 and 1.1): with day color (0, 1, 1.05) blue is not dominant over
green, yet the returned color differs from the base color. -/
theorem specular_no_ocean_gate_counterexample :
    ¬ IsOcean ⟨0, 1, 1.05, 1⟩ 1.05
    ∧ ¬ IsOcean ⟨0, 1, 1.05, 1⟩ 1.1
    ∧ render0.ApplySpecularHighlight ctxSpec colors.Black ⟨0, 1, 1.05, 1⟩ ≠ colors.Black := by
  have h4 : Real.sqrt 4 = 2 := sqrt_eval (by norm_num) (by norm_num)
  have heval : render0.ApplySpecularHighlight ctxSpec colors.Black ⟨0, 1, 1.05, 1⟩
      = ⟨0.2, 0.194, 0.18, 1.2⟩ := by
    norm_num [render0.ApplySpecularHighlight, ctxSpec, Vec3.Normalize, Vec3.Norm, Vec3.Dot,
      Vec3.Add, Vec3.Scale, Color4.Add, Color4.Scale, Clip, colors.Black, Real.sqrt_one, h4]
  refine ⟨?_, ?_, fun h => ?_⟩
  · norm_num [IsOcean]
  · norm_num [IsOcean]
  · rw [heval] at h
    norm_num [colors.Black, Color4.mk.injEq] at h

/-- C6 (amended): in the iterations that perform the ocean classification
(`render1.ApplySpecularHighlight`, threshold 1.05), whenever the sampled day
color fails the ocean classification the function returns the base color
unchanged, for every context and base color; the earliest iteration
(`render0.ApplySpecularHighlight`, the variant at part_002 without an
`IsOcean` test) does not satisfy this, as the counterexample shows. -/
theorem specular_ocean_gate (ctx : render1.RayContext) (Crgb Cday : Color4)
    (h : ¬ IsOcean Cday 1.05) :
    render1.ApplySpecularHighlight ctx Crgb Cday = Crgb := by
  simp only [render1.ApplySpecularHighlight]
  rw [if_pos h]

/-- Witness for C6 (amended): white fails the ocean classification and the
base color passes through untouched. -/
theorem specular_ocean_gate_witness :
    render1.ApplySpecularHighlight ctxSpec colors.Black colors.White = colors.Black :=
  specular_ocean_gate ctxSpec colors.Black colors.White
    (by norm_num [IsOcean, colors.White])

/-- C8: the energy-conserving night/day blend returns exactly the night color
per RGB channel at light = 0 and exactly the day color at light = 1, with
alpha fixed to 1, for texture colors (nonnegative channels). -/
theorem blendNightDay_endpoints (CDay CNight : Color4)
    (hnR : 0 ≤ CNight.R) (hnG : 0 ≤ CNight.G) (hnB : 0 ≤ CNight.B)
    (hdR : 0 ≤ CDay.R) (hdG : 0 ≤ CDay.G) (hdB : 0 ≤ CDay.B) :
    BlendNightDayEnergyConserving CDay CNight 0 = ⟨CNight.R, CNight.G, CNight.B, 1⟩
    ∧ BlendNightDayEnergyConserving CDay CNight 1 = ⟨CDay.R, CDay.G, CDay.B, 1⟩ := by
  constructor
  · simp only [BlendNightDayEnergyConserving, Color4.mk.injEq]
    refine ⟨?_, ?_, ?_, trivial⟩
    · rw [show (1 - (0:ℝ)) * CNight.R * CNight.R + 0 * CDay.R * CDay.R
          = CNight.R * CNight.R by ring, Real.sqrt_mul_self hnR]
    · rw [show (1 - (0:ℝ)) * CNight.G * CNight.G + 0 * CDay.G * CDay.G
          = CNight.G * CNight.G by ring, Real.sqrt_mul_self hnG]
    · rw [show (1 - (0:ℝ)) * CNight.B * CNight.B + 0 * CDay.B * CDay.B
          = CNight.B * CNight.B by ring, Real.sqrt_mul_self hnB]
  · simp only [BlendNightDayEnergyConserving, Color4.mk.injEq]
    refine ⟨?_, ?_, ?_, trivial⟩
    · rw [show (1 - (1:ℝ)) * CNight.R * CNight.R + 1 * CDay.R * CDay.R
          = CDay.R * CDay.R by ring, Real.sqrt_mul_self hdR]
    · rw [show (1 - (1:ℝ)) * CNight.G * CNight.G + 1 * CDay.G * CDay.G
          = CDay.G * CDay.G by ring, Real.sqrt_mul_self hdG]
    · rw [show (1 - (1:ℝ)) * CNight.B * CNight.B + 1 * CDay.B * CDay.B
          = CDay.B * CDay.B by ring, Real.sqrt_mul_self hdB]

/-- Witness for C8 at concrete day and night colors (with a night alpha other
than 1, showing the alpha is indeed fixed to 1). -/
theorem blendNightDay_endpoints_witness :
    BlendNightDayEnergyConserving ⟨1, 0.5, 0.25, 1⟩ ⟨0.5, 0, 1, 0.5⟩ 0 = ⟨0.5, 0, 1, 1⟩
    ∧ BlendNightDayEnergyConserving ⟨1, 0.5, 0.25, 1⟩ ⟨0.5, 0, 1, 0.5⟩ 1
        = ⟨1, 0.5, 0.25, 1⟩ :=
  blendNightDay_endpoints ⟨1, 0.5, 0.25, 1⟩ ⟨0.5, 0, 1, 0.5⟩
    (by norm_num) (by norm_num) (by norm_num) (by norm_num) (by norm_num) (by norm_num)

namespace gomath

lemma toInt_of_nonneg {u : ℝ} (h : 0 ≤ u) : toInt u = ⌊u⌋ := if_neg (not_lt.mpr h)

end gomath

namespace render

lemma clampIdx_mem (w x : ℤ) (hw : 1 ≤ w) : 0 ≤ clampIdx w x ∧ clampIdx w x < w := by
  unfold clampIdx
  split_ifs <;> omega

lemma getXY_eq (t : Texture) (P : vectors.Vec3) :
    t.getXY P = (texColumn t.Width (lonAdj P), texRow t.Height (latOf P)) := rfl

lemma texColumn_eq_floor (W : ℤ) (lon : ℝ) (hW : (0:ℝ) < (W:ℝ))
    (h0 : 0 ≤ (W:ℝ) / 2 + lon / (2 * Real.pi) * ((W:ℝ) - 1))
    (h1 : (W:ℝ) / 2 + lon / (2 * Real.pi) * ((W:ℝ) - 1) < (W:ℝ)) :
    texColumn W lon = ⌊(W:ℝ) / 2 + lon / (2 * Real.pi) * ((W:ℝ) - 1)⌋ := by
  simp only [texColumn, gomath.Mod]
  set u := (W:ℝ) / 2 + lon / (2 * Real.pi) * ((W:ℝ) - 1) with hu
  have hdiv0 : 0 ≤ u / (W:ℝ) := div_nonneg h0 hW.le
  have hdiv1 : u / (W:ℝ) < 1 := (div_lt_one hW).mpr h1
  rw [gomath.toInt_of_nonneg hdiv0,
    Int.floor_eq_zero_iff.mpr (Set.mem_Ico.mpr ⟨hdiv0, hdiv1⟩)]
  push_cast
  rw [mul_zero, sub_zero, if_neg (not_lt.mpr h0), gomath.toInt_of_nonneg h0]

lemma texColumn_eq_floor_wrap (W : ℤ) (lon : ℝ) (hW : (0:ℝ) < (W:ℝ))
    (h0 : (W:ℝ) ≤ (W:ℝ) / 2 + lon / (2 * Real.pi) * ((W:ℝ) - 1))
    (h1 : (W:ℝ) / 2 + lon / (2 * Real.pi) * ((W:ℝ) - 1) < 2 * (W:ℝ)) :
    texColumn W lon = ⌊(W:ℝ) / 2 + lon / (2 * Real.pi) * ((W:ℝ) - 1) - (W:ℝ)⌋ := by
  simp only [texColumn, gomath.Mod]
  set u := (W:ℝ) / 2 + lon / (2 * Real.pi) * ((W:ℝ) - 1) with hu
  have hupos : 0 ≤ u := le_trans hW.le h0
  have hdiv0 : 1 ≤ u / (W:ℝ) := (one_le_div hW).mpr h0
  have hdiv1 : u / (W:ℝ) < 2 := by
    rw [div_lt_iff hW]
    linarith
  have hfloor : ⌊u / (W:ℝ)⌋ = 1 := by
    rw [Int.floor_eq_iff]
    constructor
    · exact_mod_cast hdiv0
    · push_cast
      linarith
  rw [gomath.toInt_of_nonneg (le_trans zero_le_one hdiv0), hfloor]
  push_cast
  rw [mul_one, if_neg (not_lt.mpr (by linarith : (0:ℝ) ≤ u - (W:ℝ))),
    gomath.toInt_of_nonneg (by linarith : (0:ℝ) ≤ u - (W:ℝ))]

lemma texColumn_u_lower (W : ℤ) (lon : ℝ) (hW2 : (2:ℝ) ≤ (W:ℝ)) (h1 : Real.pi ≤ lon) :
    (W:ℝ) - 1 / 2 ≤ (W:ℝ) / 2 + lon / (2 * Real.pi) * ((W:ℝ) - 1) := by
  have hpi := Real.pi_pos
  have hq : (1:ℝ) / 2 ≤ lon / (2 * Real.pi) := by
    rw [le_div_iff (by positivity)]
    linarith
  nlinarith [mul_le_mul_of_nonneg_right hq (by linarith : (0:ℝ) ≤ (W:ℝ) - 1)]

lemma texColumn_u_upper (W : ℤ) (lon : ℝ) (hW2 : (2:ℝ) ≤ (W:ℝ))
    (h2 : lon ≤ Real.pi + 2 * Real.pi / ((W:ℝ) - 1)) :
    (W:ℝ) / 2 + lon / (2 * Real.pi) * ((W:ℝ) - 1) ≤ (W:ℝ) + 1 / 2 := by
  have hpi := Real.pi_pos
  have hW1 : (0:ℝ) < (W:ℝ) - 1 := by linarith
  have hq : lon / (2 * Real.pi) ≤ 1 / 2 + 1 / ((W:ℝ) - 1) := by
    rw [div_le_iff (by positivity)]
    have hid : (1 / 2 + 1 / ((W:ℝ) - 1)) * (2 * Real.pi)
        = Real.pi + 2 * Real.pi / ((W:ℝ) - 1) := by
      field_simp
      ring
    rw [hid]
    exact h2
  have hmul := mul_le_mul_of_nonneg_right hq hW1.le
  have hid2 : (1 / 2 + 1 / ((W:ℝ) - 1)) * ((W:ℝ) - 1) = ((W:ℝ) - 1) / 2 + 1 := by
    field_simp
    ring
  rw [hid2] at hmul
  linarith

lemma texColumn_above (W : ℤ) (hW : 2 ≤ W) (lon : ℝ)
    (h1 : Real.pi ≤ lon) (h2 : lon ≤ Real.pi + 2 * Real.pi / ((W:ℝ) - 1)) :
    texColumn W lon = W - 1 ∨ texColumn W lon = 0 := by
  have hW2 : (2:ℝ) ≤ (W:ℝ) := by exact_mod_cast hW
  have hWpos : (0:ℝ) < (W:ℝ) := by linarith
  have hlb := texColumn_u_lower W lon hW2 h1
  have hub := texColumn_u_upper W lon hW2 h2
  rcases lt_or_le ((W:ℝ) / 2 + lon / (2 * Real.pi) * ((W:ℝ) - 1)) (W:ℝ) with hc | hc
  · left
    rw [texColumn_eq_floor W lon hWpos (by linarith) hc]
    rw [Int.floor_eq_iff]
    constructor
    · push_cast
      linarith
    · push_cast
      linarith
  · right
    rw [texColumn_eq_floor_wrap W lon hWpos hc (by linarith)]
    rw [Int.floor_eq_iff]
    constructor
    · push_cast
      linarith
    · push_cast
      linarith

lemma texColumn_below (W : ℤ) (hW : 2 ≤ W) (lon : ℝ)
    (h1 : Real.pi - 2 * Real.pi / ((W:ℝ) - 1) ≤ lon) (h2 : lon ≤ Real.pi) :
    texColumn W lon = W - 2 ∨ texColumn W lon = W - 1 := by
  have hW2 : (2:ℝ) ≤ (W:ℝ) := by exact_mod_cast hW
  have hWpos : (0:ℝ) < (W:ℝ) := by linarith
  have hpi := Real.pi_pos
  have hW1 : (0:ℝ) < (W:ℝ) - 1 := by linarith
  have hqlb : 1 / 2 - 1 / ((W:ℝ) - 1) ≤ lon / (2 * Real.pi) := by
    rw [le_div_iff (by positivity)]
    have hid : (1 / 2 - 1 / ((W:ℝ) - 1)) * (2 * Real.pi)
        = Real.pi - 2 * Real.pi / ((W:ℝ) - 1) := by
      field_simp
      ring
    rw [hid]
    exact h1
  have hqub : lon / (2 * Real.pi) ≤ 1 / 2 := by
    rw [div_le_iff (by positivity)]
    linarith
  have hlb : (W:ℝ) - 3 / 2 ≤ (W:ℝ) / 2 + lon / (2 * Real.pi) * ((W:ℝ) - 1) := by
    have hmul := mul_le_mul_of_nonneg_right hqlb hW1.le
    have hid2 : (1 / 2 - 1 / ((W:ℝ) - 1)) * ((W:ℝ) - 1) = ((W:ℝ) - 1) / 2 - 1 := by
      field_simp
      ring
    rw [hid2] at hmul
    linarith
  have hub : (W:ℝ) / 2 + lon / (2 * Real.pi) * ((W:ℝ) - 1) ≤ (W:ℝ) - 1 / 2 := by
    nlinarith [mul_le_mul_of_nonneg_right hqub hW1.le]
  rw [texColumn_eq_floor W lon hWpos (by linarith) (by linarith)]
  have hfl : W - 2 ≤ ⌊(W:ℝ) / 2 + lon / (2 * Real.pi) * ((W:ℝ) - 1)⌋ := by
    rw [Int.le_floor]
    push_cast
    linarith
  have hfu : ⌊(W:ℝ) / 2 + lon / (2 * Real.pi) * ((W:ℝ) - 1)⌋ < W := by
    rw [Int.floor_lt]
    push_cast
    linarith
  omega

lemma texColumn_pi (W : ℤ) (hW : 2 ≤ W) : texColumn W Real.pi = W - 1 := by
  have hW2 : (2:ℝ) ≤ (W:ℝ) := by exact_mod_cast hW
  have hWpos : (0:ℝ) < (W:ℝ) := by linarith
  have hpi := Real.pi_pos
  have hhalf : Real.pi / (2 * Real.pi) = 1 / 2 := by
    rw [div_eq_iff (by positivity)]
    ring
  have hval : (W:ℝ) / 2 + Real.pi / (2 * Real.pi) * ((W:ℝ) - 1) = (W:ℝ) - 1 / 2 := by
    rw [hhalf]
    ring
  rw [texColumn_eq_floor W Real.pi hWpos (by rw [hval]; linarith) (by rw [hval]; linarith),
    hval, Int.floor_eq_iff]
  constructor
  · push_cast
    linarith
  · push_cast
    linarith

end render

/-- C9: for every finite input point, `Texture.Sample` computes texel
coordinates via the atan2-based lon/lat projection (the x index is exactly
`texColumn` of the shifted longitude) and performs its nearest-neighbor
lookup with indices clamped into [0, Width−1] × [0, Height−1] (no
out-of-range access); and longitudes within one texel on either side of the
±180° boundary (shifted longitude π) land in the adjacent texture columns
Width−2, Width−1 and, wrapping across the seam, Width−1, 0. -/
theorem texture_sample_safe_and_wrap (t : render.Texture) (P : Vec3)
    (hW : 1 ≤ t.Width) (hH : 1 ≤ t.Height) :
    (0 ≤ clampIdx t.Width (t.getXY P).1 ∧ clampIdx t.Width (t.getXY P).1 < t.Width
      ∧ 0 ≤ clampIdx t.Height (t.getXY P).2 ∧ clampIdx t.Height (t.getXY P).2 < t.Height
      ∧ t.Sample P = t.img (clampIdx t.Width (t.getXY P).1) (clampIdx t.Height (t.getXY P).2))
    ∧ (t.getXY P).1 = texColumn t.Width (lonAdj P)
    ∧ (2 ≤ t.Width →
        texColumn t.Width Real.pi = t.Width - 1
        ∧ (∀ lon, Real.pi ≤ lon → lon ≤ Real.pi + 2 * Real.pi / ((t.Width:ℝ) - 1) →
            texColumn t.Width lon = t.Width - 1 ∨ texColumn t.Width lon = 0)
        ∧ (∀ lon, Real.pi - 2 * Real.pi / ((t.Width:ℝ) - 1) ≤ lon → lon ≤ Real.pi →
            texColumn t.Width lon = t.Width - 2 ∨ texColumn t.Width lon = t.Width - 1)) := by
  obtain ⟨hx0, hx1⟩ := clampIdx_mem t.Width (t.getXY P).1 hW
  obtain ⟨hy0, hy1⟩ := clampIdx_mem t.Height (t.getXY P).2 hH
  refine ⟨⟨hx0, hx1, hy0, hy1, rfl⟩, by rw [getXY_eq], fun hW2 => ?_⟩
  exact ⟨texColumn_pi t.Width hW2,
    fun lon hl hu => texColumn_above t.Width hW2 lon hl hu,
    fun lon hl hu => texColumn_below t.Width hW2 lon hl hu⟩

/-- Witness for C9 on a concrete 8×4 texture: the lookup of a concrete point
goes through clamped in-range indices, the shifted longitude π maps to the
last column 7, and a longitude one half-texel west of the seam maps to column
7 or (wrapped) 0. -/
theorem texture_sample_safe_and_wrap_witness :
    tex8.Sample ⟨1, 0, 0⟩
        = tex8.img (clampIdx tex8.Width (tex8.getXY ⟨1, 0, 0⟩).1)
            (clampIdx tex8.Height (tex8.getXY ⟨1, 0, 0⟩).2)
    ∧ texColumn tex8.Width Real.pi = tex8.Width - 1
    ∧ (texColumn tex8.Width (Real.pi + Real.pi / 7) = tex8.Width - 1
        ∨ texColumn tex8.Width (Real.pi + Real.pi / 7) = 0) := by
  obtain ⟨hsafe, hlink, hwrap⟩ :=
    texture_sample_safe_and_wrap tex8 ⟨1, 0, 0⟩ (by norm_num [tex8]) (by norm_num [tex8])
  obtain ⟨hpi, habove, hbelow⟩ := hwrap (by norm_num [tex8])
  refine ⟨hsafe.2.2.2.2, hpi, ?_⟩
  apply habove
  · linarith [Real.pi_pos]
  · have hw8 : ((tex8.Width : ℤ) : ℝ) = 8 := by norm_num [tex8]
    rw [hw8]
    have hpi := Real.pi_pos
    rw [show (8:ℝ) - 1 = 7 by norm_num]
    linarith
